import Mathlib

/-!
Shallow embedding of the `StrapiClient` TypeScript class (two observed
implementation variants of the same nominal contract, called variant A and
variant B below), together with proofs about the claims of the
specification.

The embedding models:
  - base-URL normalization performed by the constructor,
  - the query-string helper (`getQueryString`, wrapping `qs.stringify`),
  - the `request` primitive (single fetch attempt, uniform
    `[error | null, data | null]` result pairs),
  - the CRUD operations `findMany`, `find`, `create`, `update`, `delete`,
    `upsert` in both variants.

The HTTP transport is modelled as a function from the index of the call
(the number of requests issued so far) to a raw outcome; every operation
threads a trace of issued requests, so request-counting properties are
statements about the length of that trace.
-/

namespace Strapi

/-- JavaScript `number | string` identifiers, plus `undefined`, which can
reach the URL layer through JS nullish-coalescing (template literals
stringify it as `"undefined"`). -/
inductive Ident where
  | num (n : Int)
  | str (s : String)
  | jsUndefined
deriving DecidableEq, Repr

/-- JS truthiness of an identifier: `0`, `""` and `undefined` are falsy. -/
def Ident.truthy : Ident → Bool
  | .num n => n != 0
  | .str s => s != ""
  | .jsUndefined => false

/-- Truthiness of an optional identifier (`if (id)` on a possibly-absent
field). -/
def optIdTruthy : Option Ident → Bool
  | none => false
  | some i => i.truthy

/-- Stringification of an identifier inside a template literal. -/
def idToString : Ident → String
  | .num n => toString n
  | .str s => s
  | .jsUndefined => "undefined"

/-- The record type `T extends { id: number | string; documentId?: string }`.
Only the two constrained fields matter to the client. -/
structure Rec where
  id : Ident
  documentId : Option String
deriving DecidableEq, Repr

/-- JS truthiness of the optional `documentId` field: absent (undefined)
and the empty string are falsy. -/
def docIdTruthy : Option String → Bool
  | none => false
  | some s => s != ""

/-- Models `interface ServiceError { message: string; status?: number }`. -/
structure ServiceError where
  message : String
  status : Option Nat
deriving DecidableEq, Repr

/-- Models `DeepPartial<T>` payload data, modelled as a list of field/value pairs. -/
abbrev PayloadData := List (String × String)

/-- Models `interface CreatePayload<T> { data: DeepPartial<T> }`. -/
structure CreatePayload where
  data : PayloadData
deriving DecidableEq, Repr

/-- Models `UpdatePayload<T>` has the same shape as `CreatePayload<T>`. -/
abbrev UpdatePayload := CreatePayload

/-- Models `StrapiFilters<T>` modelled as field/value pairs; the client never
inspects filter contents, it only serializes them. -/
abbrev Filters := List (String × String)

/-- The `pagination` member of `QueryParams<T>`; every field optional. -/
structure Pagination where
  page : Option Int := none
  pageSize : Option Int := none
  pageCount : Option Int := none
  withCount : Option Bool := none
deriving DecidableEq, Repr

/-- Models `QueryParams<T>`: a struct of optional members; a field that is `none`
models an absent key of the JS object. -/
structure QueryParams where
  filters : Option Filters := none
  populate : Option (List String) := none
  fields : Option (List String) := none
  sort : Option (List String) := none
  pagination : Option Pagination := none
  locale : Option String := none
  publicationState : Option String := none
deriving DecidableEq, Repr

/-- Models `Object.keys(params).length === 0`: no key present. -/
def QueryParams.isEmpty (p : QueryParams) : Bool :=
  p.filters.isNone && p.populate.isNone && p.fields.isNone && p.sort.isNone &&
  p.pagination.isNone && p.locale.isNone && p.publicationState.isNone

/-- Serialization of filter pairs by `qs.stringify` with `encode: true`
(brackets percent-encoded); values are assumed not to need encoding. -/
def serializeFilters (f : Filters) : List String :=
  f.map (fun kv => "filters%5B" ++ kv.1 ++ "%5D=" ++ kv.2)

/-- Models `arrayFormat: "indices"` serialization of a string array member. -/
def serializeIndexed (name : String) (vs : List String) : List String :=
  vs.enum.map (fun iv => name ++ "%5B" ++ toString iv.1 ++ "%5D=" ++ iv.2)

/-- Serialization of the `pagination` sub-object. -/
def serializePagination (p : Pagination) : List String :=
  (match p.page with
   | some n => ["pagination%5Bpage%5D=" ++ toString n]
   | none => []) ++
  (match p.pageSize with
   | some n => ["pagination%5BpageSize%5D=" ++ toString n]
   | none => []) ++
  (match p.pageCount with
   | some n => ["pagination%5BpageCount%5D=" ++ toString n]
   | none => []) ++
  (match p.withCount with
   | some b => ["pagination%5BwithCount%5D=" ++ toString b]
   | none => [])

/-- Model of `qs.stringify(params, { addQueryPrefix: false,
arrayFormat: "indices", encode: true })` on the `QueryParams` shape.
A fixed member order (the declaration order of the interface) stands in
for JS object insertion order. The output carries no leading `?`. -/
def qsStringify (p : QueryParams) : String :=
  String.intercalate "&" (
    (match p.filters with | some f => serializeFilters f | none => []) ++
    (match p.populate with | some vs => serializeIndexed "populate" vs | none => []) ++
    (match p.fields with | some vs => serializeIndexed "fields" vs | none => []) ++
    (match p.sort with | some vs => serializeIndexed "sort" vs | none => []) ++
    (match p.pagination with | some pg => serializePagination pg | none => []) ++
    (match p.locale with | some l => ["locale=" ++ l] | none => []) ++
    (match p.publicationState with | some s => ["publicationState=" ++ s] | none => []))

/-- Models `private getQueryString(params?)`: empty string for an absent or empty
struct, otherwise a `?` followed by the serialized params (the backtick
template in the source prepends the `?` itself). -/
def getQueryString (params : Option QueryParams) : String :=
  match params with
  | none => ""
  | some p => if p.isEmpty then "" else "?" ++ qsStringify p

/-- Model of `String.prototype.endsWith`. -/
def jsEndsWith (s post : String) : Bool :=
  post.data.isSuffixOf s.data

/-- Models `baseURL.replace(/\/+$/, "")`: strip all trailing slashes. -/
def stripTrailingSlashes (s : String) : String :=
  String.mk ((s.data.reverse.dropWhile (fun c => c == '/')).reverse)

/-- Models `endpoint.replace(/^\/+/, "")`: strip all leading slashes. -/
def stripLeadingSlashes (s : String) : String :=
  String.mk (s.data.dropWhile (fun c => c == '/'))

/-- Constructor normalization of the base URL: strip trailing slashes,
then append `"/api"` unless already present as a suffix. -/
def normalizeBaseURL (baseURL : String) : String :=
  let apiUrl := stripTrailingSlashes baseURL
  if jsEndsWith apiUrl "/api" then apiUrl else apiUrl ++ "/api"

/-- Client state established at construction. -/
structure Client where
  baseURL : String
  headers : List (String × String)
  uid : String
deriving DecidableEq, Repr

/-- The constructor: normalized base URL, JSON content type, bearer
authorization only for a truthy token, resource name stored verbatim. -/
def mkClient (baseURL uid : String) (token : Option String) : Client :=
  { baseURL := normalizeBaseURL baseURL
    headers := [("Content-Type", "application/json")] ++
      (match token with
       | some t => if t != "" then [("Authorization", "Bearer " ++ t)] else []
       | none => [])
    uid := uid }

/-- A request body as passed to `fetch` (already `JSON.stringify`-ed in the
source; kept structured here). `jsonWithDefaultLocale p` models variant B's
`JSON.stringify({ ...payload, data: { ...payload.data, locale: "en" } })`. -/
inductive ReqBody where
  | json (p : CreatePayload)
  | jsonWithDefaultLocale (p : CreatePayload)
deriving DecidableEq, Repr

/-- One issued transport request, as observable by a fetch mock: the
`method` of the options object (`none` = omitted, fetch defaults to GET),
the full URL, and the body. -/
structure Req where
  method : Option String
  url : String
  body : Option ReqBody
deriving DecidableEq, Repr

/-- A parsed response body: the collection envelope `{ data: T[] | null }`
or the single-item envelope `{ data: T | null }`. -/
inductive RespBody where
  | coll (data : Option (List Rec))
  | single (data : Option Rec)
deriving DecidableEq, Repr

/-- The raw outcome of one `fetch` call: the promise rejects
(`throwErr`), or a response with a status, a status text, and a body whose
JSON parse either fails with a message or yields a `RespBody`. -/
inductive RawResult where
  | throwErr (msg : String)
  | resp (status : Nat) (statusText : String) (body : Except String RespBody)

/-- The transport: the outcome of the n-th request issued (indexed by the
number of requests issued so far, i.e. the trace length). -/
abbrev Transport := Nat → RawResult

/-- Result of an operation returning `[err | null, A | null]`, paired with
the updated request trace. -/
abbrev OpResult (A : Type) := (Option ServiceError × Option A) × List Req

/-- The error built for a transport-level failure (`fetch` rejected):
message wraps the underlying error text, no status. -/
def networkErrorOf (msg : String) : ServiceError :=
  { message := "Strapi API error: " ++ msg, status := none }

/-- The error built for a non-2xx HTTP response: message embeds the
numeric code and the status text; status carries the code. -/
def httpErrorOf (status : Nat) (statusText : String) : ServiceError :=
  { message := "Strapi API error: " ++ toString status ++ " " ++ statusText,
    status := some status }

/-- The error built for an unparsable body on a successful response:
message embeds the parse-failure text; status carries the (successful)
HTTP code. -/
def parseErrorOf (status : Nat) (parseMsg : String) : ServiceError :=
  { message := "Strapi API error: Failed to parse JSON response - " ++ parseMsg,
    status := some status }

/-- Models `private request(endpoint, options)`: one fetch attempt, no retry.
`response.ok` is `200 ≤ status ≤ 299`. A body that fails to parse is an
empty success for DELETE and a parse-failure error otherwise. -/
def request (c : Client) (tr : Transport) (trace : List Req)
    (endpoint : String) (method : Option String) (body : Option ReqBody) :
    OpResult RespBody :=
  let url := c.baseURL ++ "/" ++ stripLeadingSlashes endpoint
  let trace' := trace ++ [⟨method, url, body⟩]
  match tr trace.length with
  | .throwErr msg => ((some (networkErrorOf msg), none), trace')
  | .resp status statusText bodyE =>
      if 200 ≤ status ∧ status ≤ 299 then
        match bodyE with
        | .ok b => ((none, some b), trace')
        | .error parseMsg =>
            if method == some "DELETE" then
              ((none, some (RespBody.single none)), trace')
            else
              ((some (parseErrorOf status parseMsg), none), trace')
      else
        ((some (httpErrorOf status statusText), none), trace')

/-- Models `response?.data` read as a collection (`StrapiResponse<T>`): `none`
models an absent response or a null/ill-shaped `data` field. -/
def collData : Option RespBody → Option (List Rec)
  | some (.coll d) => d
  | _ => none

/-- Models `response?.data` read as a single item (`StrapiSingleResponse<T>`). -/
def singleData : Option RespBody → Option Rec
  | some (.single d) => d
  | _ => none

/-- The repeated unwrap pattern
`if (err) return [err, null]; return [null, response?.data ?? null]`. -/
def unwrapSingle (res : OpResult RespBody) : OpResult Rec :=
  match res.1.1 with
  | some e => ((some e, none), res.2)
  | none => ((none, singleData res.1.2), res.2)

/-- The guard `locale && locale !== "en"` on a defined locale string. -/
def nonDefaultLocale (l : String) : Bool :=
  (l != "") && (l != "en")

/-- Models `{ ...params, ...(locale && locale !== "en" ? { locale } : {}) }` with
`params` possibly absent. -/
def mergeLocale (params : Option QueryParams) (locale : Option String) :
    QueryParams :=
  let base := params.getD {}
  match locale with
  | some l => if nonDefaultLocale l then { base with locale := some l } else base
  | none => base

/-- Models `{ ...params, ...(filters ? { filters } : {}) }`. -/
def addFilters (p : QueryParams) (filters : Option Filters) : QueryParams :=
  match filters with
  | some f => { p with filters := some f }
  | none => p

/-- Models `findMany(params?, locale?)` (identical in both source variants):
GET on the collection endpoint; a null/absent `data` field becomes `[]`. -/
def findMany (c : Client) (tr : Transport) (trace : List Req)
    (params : Option QueryParams) (locale : Option String) :
    OpResult (List Rec) :=
  let queryParams := mergeLocale params locale
  let queryString := getQueryString (some queryParams)
  let res := request c tr trace (c.uid ++ queryString) (some "GET") none
  match res.1.1 with
  | some e => ((some e, none), res.2)
  | none => ((none, some ((collData res.1.2).getD [])), res.2)

/-- Models `find({ id?, params?, locale? })` (identical in both source variants):
with a truthy id, GET on the resource-item endpoint; otherwise delegate to
`findMany` and return its first element (`findResponse?.[0] ?? null`). -/
def find (c : Client) (tr : Transport) (trace : List Req)
    (id : Option Ident) (params : Option QueryParams) (locale : Option String) :
    OpResult Rec :=
  let queryParams := mergeLocale params locale
  let queryString := getQueryString (some queryParams)
  if optIdTruthy id then
    unwrapSingle (request c tr trace
      (c.uid ++ "/" ++ idToString (id.getD Ident.jsUndefined) ++ queryString)
      (some "GET") none)
  else
    let fmRes := findMany c tr trace params locale
    match fmRes.1.1 with
    | some e => ((some e, none), fmRes.2)
    | none => ((none, fmRes.1.2.bind List.head?), fmRes.2)

/-- The non-default-locale discovery condition of `create`:
`enResponse?.data && enResponse.data.length > 0 &&
enResponse?.data?.[0]?.documentId` — returns the first record's
`documentId` when that whole conjunction is truthy (variant B writes the
same condition as `... && enResponse.data[0] && enResponse.data[0].documentId`,
with identical semantics on a non-sparse array). -/
def baseDocId (response : Option RespBody) : Option String :=
  match collData response with
  | some (r :: _) => if docIdTruthy r.documentId then r.documentId else none
  | _ => none

/-- Models `createResponse?.data.documentId`: the `documentId` of the single-item
payload (absent when the response or its data is missing). -/
def createdDocId (response : Option RespBody) : Option String :=
  match response with
  | some (.single (some r)) => r.documentId
  | _ => none

/-- Variant A, tail of the non-default-locale `create`: POST the payload to
`uid/{baseId}` with `{ ...params, locale }` as query string. -/
def createALocalized (c : Client) (tr : Transport) (trace : List Req)
    (payload : CreatePayload) (params' : QueryParams) (loc baseId : String) :
    OpResult Rec :=
  let localeQuery := getQueryString (some { params' with locale := some loc })
  unwrapSingle (request c tr trace (c.uid ++ "/" ++ baseId ++ localeQuery)
    (some "POST") (some (.json payload)))

/-- Variant A `create({ payload, params?, locale?, filters? })`
(`src/client.ts` of the first variant): default locale posts once;
otherwise search the collection (no explicit locale on the search), ensure
a base record with a truthy `documentId` exists (POSTing the payload when
not), then POST the localized write to `uid/{documentId}`. -/
def createA (c : Client) (tr : Transport) (trace : List Req)
    (payload : CreatePayload) (params : Option QueryParams)
    (filters : Option Filters) (locale : Option String) : OpResult Rec :=
  let params' := params.getD {}
  let loc := locale.getD "en"
  let paramQuery := getQueryString (some params')
  if loc == "en" then
    unwrapSingle (request c tr trace (c.uid ++ paramQuery)
      (some "POST") (some (.json payload)))
  else
    let searchParams := addFilters params' filters
    let searchQuery := getQueryString (some searchParams)
    let searchRes := request c tr trace (c.uid ++ searchQuery) none none
    match searchRes.1.1 with
    | some e => ((some e, none), searchRes.2)
    | none =>
      match baseDocId searchRes.1.2 with
      | some docId => createALocalized c tr searchRes.2 payload params' loc docId
      | none =>
        let createRes := request c tr searchRes.2 (c.uid ++ paramQuery)
          (some "POST") (some (.json payload))
        if createRes.1.1.isSome || !docIdTruthy (createdDocId createRes.1.2) then
          ((createRes.1.1, none), createRes.2)
        else
          createALocalized c tr createRes.2 payload params' loc
            ((createdDocId createRes.1.2).getD "")

/-- Variant B, tail of the non-default-locale `create`: PUT the payload to
`uid/{baseId}?locale={locale}`; the result must itself carry a truthy
`documentId`, else `[localeErr, null]` is returned (with `localeErr`
possibly null). -/
def createBLocalized (c : Client) (tr : Transport) (trace : List Req)
    (payload : CreatePayload) (loc baseId : String) : OpResult Rec :=
  let localeRes := request c tr trace
    (c.uid ++ "/" ++ baseId ++ "?locale=" ++ loc) (some "PUT")
    (some (.json payload))
  if localeRes.1.1.isSome || !docIdTruthy (createdDocId localeRes.1.2) then
    ((localeRes.1.1, none), localeRes.2)
  else
    ((none, singleData localeRes.1.2), localeRes.2)

/-- Variant B `create({ payload, params?, locale?, filters? })`: default
locale posts once to the bare collection endpoint; otherwise search with
`locale: "en"` merged into the params, ensure the base record exists
(POSTing the payload with `locale: "en"` injected into its data when not),
then PUT the localized write to `uid/{documentId}?locale={locale}`. -/
def createB (c : Client) (tr : Transport) (trace : List Req)
    (payload : CreatePayload) (params : Option QueryParams)
    (filters : Option Filters) (locale : Option String) : OpResult Rec :=
  let params' := params.getD {}
  let loc := locale.getD "en"
  if loc == "en" then
    unwrapSingle (request c tr trace c.uid (some "POST") (some (.json payload)))
  else
    let searchParams := { addFilters params' filters with locale := some "en" }
    let searchQuery := getQueryString (some searchParams)
    let searchRes := request c tr trace (c.uid ++ searchQuery) none none
    match searchRes.1.1 with
    | some e => ((some e, none), searchRes.2)
    | none =>
      match baseDocId searchRes.1.2 with
      | some docId => createBLocalized c tr searchRes.2 payload loc docId
      | none =>
        let createRes := request c tr searchRes.2 c.uid
          (some "POST") (some (.jsonWithDefaultLocale payload))
        if createRes.1.1.isSome || !docIdTruthy (createdDocId createRes.1.2) then
          ((createRes.1.1, none), createRes.2)
        else
          createBLocalized c tr createRes.2 payload loc
            ((createdDocId createRes.1.2).getD "")

/-- Variant A `update({ id, payload, params?, locale? })`: PUT on
`uid/{id}` with `{ ...params, ...(locale && locale !== "en" ? { locale } : {}) }`
as query string (locale defaulted to `"en"` by destructuring). -/
def updateA (c : Client) (tr : Transport) (trace : List Req)
    (id : Ident) (payload : UpdatePayload) (params : Option QueryParams)
    (locale : Option String) : OpResult Rec :=
  let params' := params.getD {}
  let loc := locale.getD "en"
  let queryParams :=
    if nonDefaultLocale loc then { params' with locale := some loc } else params'
  let queryString := getQueryString (some queryParams)
  unwrapSingle (request c tr trace
    (c.uid ++ "/" ++ idToString id ++ queryString)
    (some "PUT") (some (.json payload)))

/-- Variant B `update({ id, payload, params?, locale? })`: ignores
`params`; PUT on `uid/{id}` bare for the default locale, else on
`uid/{id}?locale={locale}`. -/
def updateB (c : Client) (tr : Transport) (trace : List Req)
    (id : Ident) (payload : UpdatePayload) (_params : Option QueryParams)
    (locale : Option String) : OpResult Rec :=
  let loc := locale.getD "en"
  let url :=
    if loc == "en" then c.uid ++ "/" ++ idToString id
    else c.uid ++ "/" ++ idToString id ++ "?locale=" ++ loc
  unwrapSingle (request c tr trace url (some "PUT") (some (.json payload)))

/-- Variant A `delete({ id, locale? })`: DELETE on `uid/{id}` with a
`locale` query parameter for a truthy non-default locale. -/
def deleteA (c : Client) (tr : Transport) (trace : List Req)
    (id : Ident) (locale : Option String) : OpResult Rec :=
  let queryParams : QueryParams :=
    match locale with
    | some l => if nonDefaultLocale l then { locale := some l } else {}
    | none => {}
  let queryString := getQueryString (some queryParams)
  unwrapSingle (request c tr trace
    (c.uid ++ "/" ++ idToString id ++ queryString) (some "DELETE") none)

/-- Variant B `delete({ id })`: DELETE on the bare `uid/{id}`; the options
type carries no locale at all. -/
def deleteB (c : Client) (tr : Transport) (trace : List Req)
    (id : Ident) : OpResult Rec :=
  unwrapSingle (request c tr trace
    (c.uid ++ "/" ++ idToString id) (some "DELETE") none)

/-- Variant A's upsert target:
`searchResponse?.[0]?.documentId ?? (searchResponse?.[0]?.documentId as string)`
— the nullish-coalescing fallback is the `documentId` again, so a record
without one yields `undefined`. -/
def upsertTargetA (r : Rec) : Ident :=
  match r.documentId with
  | some s => .str s
  | none => .jsUndefined

/-- Variant B's upsert target:
`searchResponse?.[0].documentId ?? searchResponse?.[0].id`. -/
def upsertTargetB (r : Rec) : Ident :=
  match r.documentId with
  | some s => .str s
  | none => r.id

/-- The search params built by `upsert` (identical in both variants):
`{ ...params, ...(filters ? { filters } : {}), pagination: { pageSize: 1 },
...(locale && locale !== "en" ? { locale } : {}) }` with `locale`
defaulted to `"en"`. -/
def upsertSearchParams (params' : QueryParams) (filters : Option Filters)
    (loc : String) : QueryParams :=
  let withPag := { addFilters params' filters with
    pagination := some { pageSize := some 1 } }
  if nonDefaultLocale loc then { withPag with locale := some loc } else withPag

/-- Variant A `upsert({ payload, filters?, params?, locale? })`: search via
`findMany` (page size one); when a record is found, delegate to `update`
with `upsertTargetA`; else delegate to `create`. -/
def upsertA (c : Client) (tr : Transport) (trace : List Req)
    (payload : CreatePayload) (filters : Option Filters)
    (params : Option QueryParams) (locale : Option String) : OpResult Rec :=
  let params' := params.getD {}
  let loc := locale.getD "en"
  let searchRes := findMany c tr trace
    (some (upsertSearchParams params' filters loc)) (some loc)
  match searchRes.1.1 with
  | some e => ((some e, none), searchRes.2)
  | none =>
    match (searchRes.1.2.getD []) with
    | r :: _ =>
        updateA c tr searchRes.2 (upsertTargetA r) payload (some params') (some loc)
    | [] => createA c tr searchRes.2 payload (some params') filters (some loc)

/-- Variant B `upsert({ payload, filters?, params?, locale? })`: same
search; delegates to `update` with `upsertTargetB`, or to `create`. -/
def upsertB (c : Client) (tr : Transport) (trace : List Req)
    (payload : CreatePayload) (filters : Option Filters)
    (params : Option QueryParams) (locale : Option String) : OpResult Rec :=
  let params' := params.getD {}
  let loc := locale.getD "en"
  let searchRes := findMany c tr trace
    (some (upsertSearchParams params' filters loc)) (some loc)
  match searchRes.1.1 with
  | some e => ((some e, none), searchRes.2)
  | none =>
    match (searchRes.1.2.getD []) with
    | r :: _ =>
        updateB c tr searchRes.2 (upsertTargetB r) payload (some params') (some loc)
    | [] => createB c tr searchRes.2 payload (some params') filters (some loc)

/-! ## Helper lemmas -/

/-- Lemma: `request` appends exactly one request to the trace, whatever the
transport outcome. -/
theorem request_trace (c : Client) (tr : Transport) (trace : List Req)
    (e : String) (m : Option String) (b : Option ReqBody) :
    (request c tr trace e m b).2 =
      trace ++ [⟨m, c.baseURL ++ "/" ++ stripLeadingSlashes e, b⟩] := by
  unfold request
  cases tr trace.length with
  | throwErr msg => rfl
  | resp status statusText bodyE =>
    dsimp only
    split
    · cases bodyE with
      | ok b' => rfl
      | error pm =>
        dsimp only
        split <;> rfl
    · rfl

/-- Lemma: `unwrapSingle` preserves the trace. -/
theorem unwrapSingle_trace (res : OpResult RespBody) :
    (unwrapSingle res).2 = res.2 := by
  unfold unwrapSingle
  cases h : res.1.1 <;> rfl

/-- Lemma: `request` on a 2xx response with a parsable body. -/
theorem request_ok {c : Client} {tr : Transport} {trace : List Req}
    {e : String} {m : Option String} {bd : Option ReqBody}
    {status : Nat} {text : String} {b : RespBody}
    (hs : 200 ≤ status ∧ status ≤ 299)
    (htr : tr trace.length = .resp status text (.ok b)) :
    request c tr trace e m bd =
      ((none, some b),
       trace ++ [⟨m, c.baseURL ++ "/" ++ stripLeadingSlashes e, bd⟩]) := by
  simp only [request, htr]
  rw [if_pos hs]

/-- Lemma: `request` on a non-2xx response: an error with the status and a
message embedding code and status text, null data, one request issued. -/
theorem request_httpError {c : Client} {tr : Transport} {trace : List Req}
    {e : String} {m : Option String} {bd : Option ReqBody}
    {status : Nat} {text : String} {bodyE : Except String RespBody}
    (hs : ¬(200 ≤ status ∧ status ≤ 299))
    (htr : tr trace.length = .resp status text bodyE) :
    request c tr trace e m bd =
      ((some (httpErrorOf status text), none),
       trace ++ [⟨m, c.baseURL ++ "/" ++ stripLeadingSlashes e, bd⟩]) := by
  simp only [request, htr]
  rw [if_neg hs]

/-- Lemma: `request` on a 2xx response whose body fails to parse, for a DELETE:
an empty success payload `{ data: null }`. -/
theorem request_parseFailDelete {c : Client} {tr : Transport}
    {trace : List Req} {e : String} {bd : Option ReqBody}
    {status : Nat} {text pmsg : String}
    (hs : 200 ≤ status ∧ status ≤ 299)
    (htr : tr trace.length = .resp status text (.error pmsg)) :
    request c tr trace e (some "DELETE") bd =
      ((none, some (RespBody.single none)),
       trace ++ [⟨some "DELETE", c.baseURL ++ "/" ++ stripLeadingSlashes e, bd⟩]) := by
  simp only [request, htr]
  rw [if_pos hs]
  rfl

/-- Lemma: `request` on a 2xx response whose body fails to parse, for a non-DELETE
method: a parse-failure error carrying the successful HTTP status. -/
theorem request_parseFailOther {c : Client} {tr : Transport}
    {trace : List Req} {e : String} {m : Option String} {bd : Option ReqBody}
    {status : Nat} {text pmsg : String}
    (hm : (m == some "DELETE") = false)
    (hs : 200 ≤ status ∧ status ≤ 299)
    (htr : tr trace.length = .resp status text (.error pmsg)) :
    request c tr trace e m bd =
      ((some (parseErrorOf status pmsg), none),
       trace ++ [⟨m, c.baseURL ++ "/" ++ stripLeadingSlashes e, bd⟩]) := by
  simp only [request, htr]
  rw [if_pos hs]
  simp only [hm]
  rfl

/-- A string with the suffix `"/api"` is unchanged by trailing-slash
stripping (its last character is `'i'`). -/
theorem stripTrailingSlashes_endsWithApi (s : String)
    (h : jsEndsWith s "/api" = true) : stripTrailingSlashes s = s := by
  unfold jsEndsWith at h
  rw [List.isSuffixOf_iff_suffix] at h
  obtain ⟨t, ht⟩ := h
  have hdata : s.data = t ++ ['/', 'a', 'p', 'i'] := ht.symm
  unfold stripTrailingSlashes
  rw [hdata, List.reverse_append]
  have h1 : (['/', 'a', 'p', 'i'].reverse : List Char) = ['i', 'p', 'a', '/'] := rfl
  rw [h1]
  have h2 : (['i', 'p', 'a', '/'] ++ t.reverse : List Char) =
      'i' :: ('p' :: 'a' :: '/' :: t.reverse) := rfl
  rw [h2, List.dropWhile_cons]
  have h3 : (('i' : Char) == '/') = false := rfl
  rw [h3]
  simp only [Bool.false_eq_true, if_false]
  rw [← h2, List.reverse_append, List.reverse_reverse]
  have h4 : (['i', 'p', 'a', '/'].reverse : List Char) = ['/', 'a', 'p', 'i'] := rfl
  rw [h4, ← hdata]

/-- Normalization keeps a base that already ends in `"/api"` unchanged
after slash stripping (the segment is not duplicated). -/
theorem normalizeBaseURL_eq_of_endsWithApi (s : String)
    (h : jsEndsWith (stripTrailingSlashes s) "/api" = true) :
    normalizeBaseURL s = stripTrailingSlashes s := by
  simp only [normalizeBaseURL]
  rw [if_pos h]

/-- Normalization appends `"/api"` when the stripped base lacks it. -/
theorem normalizeBaseURL_eq_append (s : String)
    (h : jsEndsWith (stripTrailingSlashes s) "/api" = false) :
    normalizeBaseURL s = stripTrailingSlashes s ++ "/api" := by
  simp only [normalizeBaseURL]
  rw [if_neg (by rw [h]; exact Bool.false_ne_true)]

/-- The normalized base URL always ends in `"/api"`. -/
theorem normalizeBaseURL_endsWithApi (s : String) :
    jsEndsWith (normalizeBaseURL s) "/api" = true := by
  by_cases h : jsEndsWith (stripTrailingSlashes s) "/api" = true
  · rw [normalizeBaseURL_eq_of_endsWithApi s h]
    exact h
  · rw [normalizeBaseURL_eq_append s (Bool.eq_false_iff.mpr h)]
    unfold jsEndsWith
    rw [List.isSuffixOf_iff_suffix, String.data_append]
    exact List.suffix_append _ _

/-- C7: Base-URL normalization maps "http://h/", "http://h/api" and
"http://h///" to the identical stored base "http://h/api"; in general it
strips trailing slashes, appends the `/api` segment when absent, does not
duplicate it when present, and is idempotent; the constructor stores the
normalized value. -/
theorem C7_baseURL_normalization :
    normalizeBaseURL "http://h/" = "http://h/api" ∧
    normalizeBaseURL "http://h/api" = "http://h/api" ∧
    normalizeBaseURL "http://h///" = "http://h/api" ∧
    (∀ s : String, normalizeBaseURL (normalizeBaseURL s) = normalizeBaseURL s) ∧
    (∀ s : String, jsEndsWith (stripTrailingSlashes s) "/api" = true →
        normalizeBaseURL s = stripTrailingSlashes s) ∧
    (∀ s : String, jsEndsWith (stripTrailingSlashes s) "/api" = false →
        normalizeBaseURL s = stripTrailingSlashes s ++ "/api") ∧
    (∀ b u tok, (mkClient b u tok).baseURL = normalizeBaseURL b) := by
  refine ⟨by decide, by decide, by decide, ?_,
    normalizeBaseURL_eq_of_endsWithApi, normalizeBaseURL_eq_append,
    fun b u tok => rfl⟩
  intro s
  have h1 := normalizeBaseURL_endsWithApi s
  have h2 := stripTrailingSlashes_endsWithApi _ h1
  rw [normalizeBaseURL_eq_of_endsWithApi (normalizeBaseURL s) (by rw [h2]; exact h1),
    h2]

/-- C7 witness: the appended-when-absent and kept-when-present branches at
concrete inputs. -/
theorem C7_baseURL_normalization_witness :
    (jsEndsWith (stripTrailingSlashes "http://h/api") "/api" = true ∧
      normalizeBaseURL "http://h/api" = stripTrailingSlashes "http://h/api") ∧
    (jsEndsWith (stripTrailingSlashes "http://h") "/api" = false ∧
      normalizeBaseURL "http://h" = stripTrailingSlashes "http://h" ++ "/api") :=
  ⟨⟨by decide, C7_baseURL_normalization.2.2.2.2.1 "http://h/api" (by decide)⟩,
   ⟨by decide, C7_baseURL_normalization.2.2.2.2.2.1 "http://h" (by decide)⟩⟩

/-- C6 counterexample: for the non-empty struct `{ locale: "fr" }` the
helper's output is `"?locale=fr"`, which is not the serialized query
string without a leading `?` — the `?` is embedded in the helper's own
output (the backtick template prepends it), not added by the caller. -/
theorem C6_counterexample :
    getQueryString (some { locale := some "fr" }) = "?locale=fr" ∧
    qsStringify { locale := some "fr" } = "locale=fr" ∧
    getQueryString (some { locale := some "fr" }) ≠
      qsStringify { locale := some "fr" } := by
  refine ⟨by decide, by decide, by decide⟩

/-- C6 amended: the query-string helper returns the empty string for an
absent or empty parameter struct, and for every non-empty struct returns
`"?"` followed by the serialized query string — the leading `?` is
embedded in the helper's own output (its `qs.stringify` call is configured
without a prefix, but the surrounding template adds one); callers
concatenate the helper's output directly without adding a `?`. -/
theorem C6_query_string_helper :
    getQueryString none = "" ∧
    (∀ p : QueryParams, p.isEmpty = true → getQueryString (some p) = "") ∧
    (∀ p : QueryParams, p.isEmpty = false →
        getQueryString (some p) = "?" ++ qsStringify p) := by
  refine ⟨rfl, ?_, ?_⟩
  · intro p h
    simp only [getQueryString]
    rw [if_pos h]
  · intro p h
    simp only [getQueryString]
    rw [if_neg (by rw [h]; exact Bool.false_ne_true)]

/-- C6 witness: both branches of the helper at concrete structs. -/
theorem C6_query_string_helper_witness :
    (({} : QueryParams).isEmpty = true ∧ getQueryString (some {}) = "") ∧
    (({ locale := some "fr" } : QueryParams).isEmpty = false ∧
      getQueryString (some { locale := some "fr" }) =
        "?" ++ qsStringify { locale := some "fr" }) :=
  ⟨⟨by decide, C6_query_string_helper.2.1 {} (by decide)⟩,
   ⟨by decide, C6_query_string_helper.2.2 { locale := some "fr" } (by decide)⟩⟩

/-- Dropping a prefix-predicate across an append whose right part starts
with a failing character distributes. -/
theorem dropWhile_append_of_head_false {p : Char → Bool} (l₁ : List Char)
    (a : Char) (l₂ : List Char) (ha : p a = false) :
    List.dropWhile p (l₁ ++ a :: l₂) = List.dropWhile p l₁ ++ a :: l₂ := by
  induction l₁ with
  | nil => simp [List.dropWhile_cons, ha]
  | cons x xs ih =>
    rw [List.cons_append, List.dropWhile_cons, List.dropWhile_cons]
    cases hx : p x
    · simp only [Bool.false_eq_true, if_false, List.cons_append]
    · simp only [if_true]
      exact ih

/-- Stripping leading slashes distributes over appending a query suffix
(which starts with `'?'`, never a slash). -/
theorem stripLeadingSlashes_append_query (e : String) :
    stripLeadingSlashes (e ++ "?locale=fr") =
      stripLeadingSlashes e ++ "?locale=fr" := by
  unfold stripLeadingSlashes
  rw [String.data_append]
  have h : ("?locale=fr" : String).data = '?' :: "locale=fr".data := rfl
  rw [h, dropWhile_append_of_head_false _ _ _ (by rfl)]
  rfl

/-- A URL with the `?locale=fr` query suffix differs from the bare one. -/
theorem url_locale_ne (base e : String) :
    base ++ "/" ++ stripLeadingSlashes (e ++ "?locale=fr") ≠
      base ++ "/" ++ stripLeadingSlashes e := by
  intro hEq
  have h := congrArg String.length hEq
  rw [stripLeadingSlashes_append_query] at h
  simp only [String.length_append] at h
  have h10 : ("?locale=fr" : String).length = 10 := rfl
  rw [h10] at h
  omega

/-- C9: The two delete implementations are inequivalent on locale
handling: for the non-default locale "fr" variant A issues the deletion
with a `locale` query parameter appended to the resource-item URL while
variant B issues it with no query string at all; for the default locale
"en" or no locale, both issue identical bare resource-item URLs. -/
theorem C9_delete_variants_inequivalent (c : Client) (tr : Transport)
    (trace : List Req) (id : Ident) :
    (deleteA c tr trace id (some "fr")).2 =
      trace ++ [⟨some "DELETE",
        c.baseURL ++ "/" ++
          stripLeadingSlashes (c.uid ++ "/" ++ idToString id ++ "?locale=fr"),
        none⟩] ∧
    (deleteB c tr trace id).2 =
      trace ++ [⟨some "DELETE",
        c.baseURL ++ "/" ++ stripLeadingSlashes (c.uid ++ "/" ++ idToString id),
        none⟩] ∧
    (c.baseURL ++ "/" ++
        stripLeadingSlashes (c.uid ++ "/" ++ idToString id ++ "?locale=fr")) ≠
      (c.baseURL ++ "/" ++ stripLeadingSlashes (c.uid ++ "/" ++ idToString id)) ∧
    (deleteA c tr trace id (some "en")).2 = (deleteB c tr trace id).2 ∧
    (deleteA c tr trace id none).2 = (deleteB c tr trace id).2 := by
  refine ⟨?_, ?_, url_locale_ne _ _, ?_, ?_⟩
  · simp only [deleteA]
    rw [unwrapSingle_trace, request_trace]
    exact rfl
  · simp only [deleteB]
    rw [unwrapSingle_trace, request_trace]
  · simp only [deleteA, deleteB]
    rw [unwrapSingle_trace, request_trace, unwrapSingle_trace, request_trace]
    have hq : getQueryString (some (if nonDefaultLocale "en" then
        ({ locale := some "en" } : QueryParams) else {})) = "" := rfl
    rw [hq, String.append_empty]
  · simp only [deleteA, deleteB]
    rw [unwrapSingle_trace, request_trace, unwrapSingle_trace, request_trace]
    have hq : getQueryString (some ({} : QueryParams)) = "" := rfl
    rw [hq, String.append_empty]

/-- C10: `find` guards the identifier branch with a truthiness test, so
`find({ id: 0 })` and `find({ id: "" })` behave exactly like a call with no
identifier: no GET is issued to the resource-item endpoint — the single
request issued goes to the collection endpoint via `findMany` — and the
result is the collection's first element or null, with `findMany` errors
propagated unchanged. -/
theorem C10_find_falsy_id (c : Client) (tr : Transport) (trace : List Req)
    (params : Option QueryParams) (locale : Option String) :
    find c tr trace (some (.num 0)) params locale =
      find c tr trace none params locale ∧
    find c tr trace (some (.str "")) params locale =
      find c tr trace none params locale ∧
    (find c tr trace (some (.num 0)) params locale).2 =
      trace ++ [⟨some "GET",
        c.baseURL ++ "/" ++ stripLeadingSlashes
          (c.uid ++ getQueryString (some (mergeLocale params locale))), none⟩] ∧
    ((findMany c tr trace params locale).1.1 = none →
      (find c tr trace (some (.num 0)) params locale).1 =
        (none, ((findMany c tr trace params locale).1.2).bind List.head?)) ∧
    (∀ e, (findMany c tr trace params locale).1.1 = some e →
      (find c tr trace (some (.num 0)) params locale).1 = (some e, none)) := by
  have hfalse : optIdTruthy (some (.num 0)) = false := rfl
  refine ⟨rfl, rfl, ?_, ?_, ?_⟩
  · simp only [find, hfalse, Bool.false_eq_true, if_false]
    simp only [findMany]
    cases h : (request c tr trace
        (c.uid ++ getQueryString (some (mergeLocale params locale)))
        (some "GET") none).1.1 <;>
      simp [h, ← request_trace c tr trace
        (c.uid ++ getQueryString (some (mergeLocale params locale)))
        (some "GET") none]
  · intro h
    simp only [find, hfalse, Bool.false_eq_true, if_false, h]
  · intro e h
    simp only [find, hfalse, Bool.false_eq_true, if_false, h]

/-- C10 witness: a concrete client and transport where `find({id: 0})`
returns the first collection element (id 3) without touching the item
endpoint. -/
theorem C10_find_falsy_id_witness :
    ((findMany (mkClient "http://h" "res" none)
        (fun _ => .resp 200 "OK" (.ok (.coll (some [⟨.num 3, none⟩]))))
        [] none none).1.1 = none ∧
      (find (mkClient "http://h" "res" none)
        (fun _ => .resp 200 "OK" (.ok (.coll (some [⟨.num 3, none⟩]))))
        [] (some (.num 0)) none none).1 =
        (none, some ⟨.num 3, none⟩)) ∧
    ((findMany (mkClient "http://h" "res" none)
        (fun _ => .resp 404 "Not Found" (.ok (.coll (some []))))
        [] none none).1.1 =
        some ⟨"Strapi API error: 404 Not Found", some 404⟩ ∧
      (find (mkClient "http://h" "res" none)
        (fun _ => .resp 404 "Not Found" (.ok (.coll (some []))))
        [] (some (.num 0)) none none).1 =
        (some ⟨"Strapi API error: 404 Not Found", some 404⟩, none)) := by
  constructor
  · constructor
    · rfl
    · have h := (C10_find_falsy_id (mkClient "http://h" "res" none)
        (fun _ => .resp 200 "OK" (.ok (.coll (some [⟨.num 3, none⟩]))))
        [] none none).2.2.2.1 (by rfl)
      rw [h]
      rfl
  · constructor
    · rfl
    · exact (C10_find_falsy_id (mkClient "http://h" "res" none)
        (fun _ => .resp 404 "Not Found" (.ok (.coll (some []))))
        [] none none).2.2.2.2
        ⟨"Strapi API error: 404 Not Found", some 404⟩ (by rfl)

/-- C8: For every read/write operation (in both variants) and all other
inputs held fixed, invoking with the locale omitted and with locale "en"
(the fixed default tag) produces identical behavior — in particular
byte-identical request query strings — and the merged query parameters
carry no `locale` key (so no `locale=` parameter is serialized) whenever
the caller-supplied params carry none; variant B's delete takes no locale
at all and is trivially unaffected. -/
theorem C8_default_locale_omitted (c : Client) (tr : Transport)
    (trace : List Req) (params : Option QueryParams) (payload : CreatePayload)
    (filters : Option Filters) (id : Ident) :
    findMany c tr trace params none = findMany c tr trace params (some "en") ∧
    (∀ oid, find c tr trace oid params none =
      find c tr trace oid params (some "en")) ∧
    createA c tr trace payload params filters none =
      createA c tr trace payload params filters (some "en") ∧
    createB c tr trace payload params filters none =
      createB c tr trace payload params filters (some "en") ∧
    updateA c tr trace id payload params none =
      updateA c tr trace id payload params (some "en") ∧
    updateB c tr trace id payload params none =
      updateB c tr trace id payload params (some "en") ∧
    deleteA c tr trace id none = deleteA c tr trace id (some "en") ∧
    upsertA c tr trace payload filters params none =
      upsertA c tr trace payload filters params (some "en") ∧
    upsertB c tr trace payload filters params none =
      upsertB c tr trace payload filters params (some "en") ∧
    mergeLocale params none = params.getD {} ∧
    mergeLocale params (some "en") = params.getD {} ∧
    ((params.getD {}).locale = none →
      (mergeLocale params (some "en")).locale = none ∧
      (mergeLocale params none).locale = none) := by
  refine ⟨rfl, fun oid => rfl, rfl, rfl, rfl, rfl, rfl, rfl, rfl, rfl, rfl, ?_⟩
  intro h
  exact ⟨h, h⟩

/-- C8 witness: instantiation at a concrete empty params struct. -/
theorem C8_default_locale_omitted_witness :
    ((none : Option QueryParams).getD {}).locale = none ∧
    (mergeLocale none (some "en")).locale = none ∧
    (mergeLocale none none).locale = none := by
  have h := (C8_default_locale_omitted (mkClient "http://h" "res" none)
    (fun _ => .throwErr "x") [] none ⟨[]⟩ none (.num 1)).2.2.2.2.2.2.2.2.2.2.2
    (by rfl)
  exact ⟨rfl, h.1, h.2⟩

/-! ### First-step HTTP-error propagation, per operation -/

/-- Lemma: `findMany` on a non-2xx first response: the error pair, one request. -/
theorem findMany_httpError {c : Client} {tr : Transport} {trace : List Req}
    {params : Option QueryParams} {locale : Option String}
    {status : Nat} {text : String} {bodyE : Except String RespBody}
    (hs : ¬(200 ≤ status ∧ status ≤ 299))
    (htr : tr trace.length = .resp status text bodyE) :
    findMany c tr trace params locale =
      ((some (httpErrorOf status text), none),
       trace ++ [⟨some "GET",
         c.baseURL ++ "/" ++ stripLeadingSlashes
           (c.uid ++ getQueryString (some (mergeLocale params locale))),
         none⟩]) := by
  simp only [findMany, request_httpError hs htr]

/-- Lemma: `find` on a non-2xx first response, either branch. -/
theorem find_httpError {c : Client} {tr : Transport} {trace : List Req}
    {oid : Option Ident} {params : Option QueryParams} {locale : Option String}
    {status : Nat} {text : String} {bodyE : Except String RespBody}
    (hs : ¬(200 ≤ status ∧ status ≤ 299))
    (htr : tr trace.length = .resp status text bodyE) :
    (find c tr trace oid params locale).1 =
      (some (httpErrorOf status text), none) ∧
    (find c tr trace oid params locale).2.length = trace.length + 1 := by
  simp only [find]
  by_cases hid : optIdTruthy oid = true
  · rw [if_pos hid, request_httpError hs htr]
    exact ⟨rfl, by simp [unwrapSingle]⟩
  · rw [if_neg hid, findMany_httpError hs htr]
    exact ⟨rfl, by simp⟩

/-- Lemma: `createA` on a non-2xx first response (both locale branches). -/
theorem createA_httpError {c : Client} {tr : Transport} {trace : List Req}
    {payload : CreatePayload} {params : Option QueryParams}
    {filters : Option Filters} {locale : Option String}
    {status : Nat} {text : String} {bodyE : Except String RespBody}
    (hs : ¬(200 ≤ status ∧ status ≤ 299))
    (htr : tr trace.length = .resp status text bodyE) :
    (createA c tr trace payload params filters locale).1 =
      (some (httpErrorOf status text), none) ∧
    (createA c tr trace payload params filters locale).2.length =
      trace.length + 1 := by
  simp only [createA]
  by_cases hl : ((locale.getD "en") == "en") = true
  · rw [if_pos hl, request_httpError hs htr]
    exact ⟨rfl, by simp [unwrapSingle]⟩
  · rw [if_neg hl, request_httpError hs htr]
    exact ⟨rfl, by simp⟩

/-- Lemma: `createB` on a non-2xx first response (both locale branches). -/
theorem createB_httpError {c : Client} {tr : Transport} {trace : List Req}
    {payload : CreatePayload} {params : Option QueryParams}
    {filters : Option Filters} {locale : Option String}
    {status : Nat} {text : String} {bodyE : Except String RespBody}
    (hs : ¬(200 ≤ status ∧ status ≤ 299))
    (htr : tr trace.length = .resp status text bodyE) :
    (createB c tr trace payload params filters locale).1 =
      (some (httpErrorOf status text), none) ∧
    (createB c tr trace payload params filters locale).2.length =
      trace.length + 1 := by
  simp only [createB]
  by_cases hl : ((locale.getD "en") == "en") = true
  · rw [if_pos hl, request_httpError hs htr]
    exact ⟨rfl, by simp [unwrapSingle]⟩
  · rw [if_neg hl, request_httpError hs htr]
    exact ⟨rfl, by simp⟩

/-- Lemma: `updateA` on a non-2xx response. -/
theorem updateA_httpError {c : Client} {tr : Transport} {trace : List Req}
    {id : Ident} {payload : UpdatePayload} {params : Option QueryParams}
    {locale : Option String}
    {status : Nat} {text : String} {bodyE : Except String RespBody}
    (hs : ¬(200 ≤ status ∧ status ≤ 299))
    (htr : tr trace.length = .resp status text bodyE) :
    (updateA c tr trace id payload params locale).1 =
      (some (httpErrorOf status text), none) ∧
    (updateA c tr trace id payload params locale).2.length =
      trace.length + 1 := by
  simp only [updateA]
  rw [request_httpError hs htr]
  exact ⟨rfl, by simp [unwrapSingle]⟩

/-- Lemma: `updateB` on a non-2xx response. -/
theorem updateB_httpError {c : Client} {tr : Transport} {trace : List Req}
    {id : Ident} {payload : UpdatePayload} {params : Option QueryParams}
    {locale : Option String}
    {status : Nat} {text : String} {bodyE : Except String RespBody}
    (hs : ¬(200 ≤ status ∧ status ≤ 299))
    (htr : tr trace.length = .resp status text bodyE) :
    (updateB c tr trace id payload params locale).1 =
      (some (httpErrorOf status text), none) ∧
    (updateB c tr trace id payload params locale).2.length =
      trace.length + 1 := by
  simp only [updateB]
  rw [request_httpError hs htr]
  exact ⟨rfl, by simp [unwrapSingle]⟩

/-- Lemma: `deleteA` on a non-2xx response. -/
theorem deleteA_httpError {c : Client} {tr : Transport} {trace : List Req}
    {id : Ident} {locale : Option String}
    {status : Nat} {text : String} {bodyE : Except String RespBody}
    (hs : ¬(200 ≤ status ∧ status ≤ 299))
    (htr : tr trace.length = .resp status text bodyE) :
    (deleteA c tr trace id locale).1 = (some (httpErrorOf status text), none) ∧
    (deleteA c tr trace id locale).2.length = trace.length + 1 := by
  simp only [deleteA]
  rw [request_httpError hs htr]
  exact ⟨rfl, by simp [unwrapSingle]⟩

/-- Lemma: `deleteB` on a non-2xx response. -/
theorem deleteB_httpError {c : Client} {tr : Transport} {trace : List Req}
    {id : Ident}
    {status : Nat} {text : String} {bodyE : Except String RespBody}
    (hs : ¬(200 ≤ status ∧ status ≤ 299))
    (htr : tr trace.length = .resp status text bodyE) :
    (deleteB c tr trace id).1 = (some (httpErrorOf status text), none) ∧
    (deleteB c tr trace id).2.length = trace.length + 1 := by
  simp only [deleteB]
  rw [request_httpError hs htr]
  exact ⟨rfl, by simp [unwrapSingle]⟩

/-- Lemma: `upsertA` on a non-2xx search response. -/
theorem upsertA_httpError {c : Client} {tr : Transport} {trace : List Req}
    {payload : CreatePayload} {filters : Option Filters}
    {params : Option QueryParams} {locale : Option String}
    {status : Nat} {text : String} {bodyE : Except String RespBody}
    (hs : ¬(200 ≤ status ∧ status ≤ 299))
    (htr : tr trace.length = .resp status text bodyE) :
    (upsertA c tr trace payload filters params locale).1 =
      (some (httpErrorOf status text), none) ∧
    (upsertA c tr trace payload filters params locale).2.length =
      trace.length + 1 := by
  simp only [upsertA, findMany_httpError hs htr]
  exact ⟨trivial, by simp⟩

/-- Lemma: `upsertB` on a non-2xx search response. -/
theorem upsertB_httpError {c : Client} {tr : Transport} {trace : List Req}
    {payload : CreatePayload} {filters : Option Filters}
    {params : Option QueryParams} {locale : Option String}
    {status : Nat} {text : String} {bodyE : Except String RespBody}
    (hs : ¬(200 ≤ status ∧ status ≤ 299))
    (htr : tr trace.length = .resp status text bodyE) :
    (upsertB c tr trace payload filters params locale).1 =
      (some (httpErrorOf status text), none) ∧
    (upsertB c tr trace payload filters params locale).2.length =
      trace.length + 1 := by
  simp only [upsertB, findMany_httpError hs htr]
  exact ⟨trivial, by simp⟩

/-- C4: for every operation (both variants) and every transport response
whose HTTP status is outside the 2xx success range, the operation returns a
pair whose error has `status` set to that code and a message embedding the
code and status text (`httpErrorOf`), whose data is null, and the transport
is invoked exactly once for the failing step — the trace grows by exactly
one request, no retry. -/
theorem C4_http_error_no_retry {status : Nat} {text : String}
    {bodyE : Except String RespBody}
    (c : Client) (tr : Transport) (trace : List Req)
    (params : Option QueryParams) (payload : CreatePayload)
    (filters : Option Filters) (id : Ident) (oid : Option Ident)
    (locale : Option String)
    (hs : ¬(200 ≤ status ∧ status ≤ 299))
    (htr : tr trace.length = .resp status text bodyE) :
    httpErrorOf status text =
      { message := "Strapi API error: " ++ toString status ++ " " ++ text,
        status := some status } ∧
    (∀ e m bd, request c tr trace e m bd =
      ((some (httpErrorOf status text), none),
       trace ++ [⟨m, c.baseURL ++ "/" ++ stripLeadingSlashes e, bd⟩])) ∧
    ((findMany c tr trace params locale).1 =
        (some (httpErrorOf status text), none) ∧
      (findMany c tr trace params locale).2.length = trace.length + 1) ∧
    ((find c tr trace oid params locale).1 =
        (some (httpErrorOf status text), none) ∧
      (find c tr trace oid params locale).2.length = trace.length + 1) ∧
    ((createA c tr trace payload params filters locale).1 =
        (some (httpErrorOf status text), none) ∧
      (createA c tr trace payload params filters locale).2.length =
        trace.length + 1) ∧
    ((createB c tr trace payload params filters locale).1 =
        (some (httpErrorOf status text), none) ∧
      (createB c tr trace payload params filters locale).2.length =
        trace.length + 1) ∧
    ((updateA c tr trace id payload params locale).1 =
        (some (httpErrorOf status text), none) ∧
      (updateA c tr trace id payload params locale).2.length =
        trace.length + 1) ∧
    ((updateB c tr trace id payload params locale).1 =
        (some (httpErrorOf status text), none) ∧
      (updateB c tr trace id payload params locale).2.length =
        trace.length + 1) ∧
    ((deleteA c tr trace id locale).1 =
        (some (httpErrorOf status text), none) ∧
      (deleteA c tr trace id locale).2.length = trace.length + 1) ∧
    ((deleteB c tr trace id).1 = (some (httpErrorOf status text), none) ∧
      (deleteB c tr trace id).2.length = trace.length + 1) ∧
    ((upsertA c tr trace payload filters params locale).1 =
        (some (httpErrorOf status text), none) ∧
      (upsertA c tr trace payload filters params locale).2.length =
        trace.length + 1) ∧
    ((upsertB c tr trace payload filters params locale).1 =
        (some (httpErrorOf status text), none) ∧
      (upsertB c tr trace payload filters params locale).2.length =
        trace.length + 1) :=
  ⟨rfl,
   fun e m bd => request_httpError hs htr,
   ⟨by rw [findMany_httpError hs htr], by rw [findMany_httpError hs htr]; simp⟩,
   find_httpError hs htr,
   createA_httpError hs htr,
   createB_httpError hs htr,
   updateA_httpError hs htr,
   updateB_httpError hs htr,
   deleteA_httpError hs htr,
   deleteB_httpError hs htr,
   upsertA_httpError hs htr,
   upsertB_httpError hs htr⟩

/-- C4 witness: a 500 response at a concrete client and transport. -/
theorem C4_http_error_no_retry_witness :
    (findMany (mkClient "http://h" "res" none)
        (fun _ => .resp 500 "Internal Server Error" (.ok (.coll (some []))))
        [] none none).1 =
      (some (httpErrorOf 500 "Internal Server Error"), none) ∧
    (findMany (mkClient "http://h" "res" none)
        (fun _ => .resp 500 "Internal Server Error" (.ok (.coll (some []))))
        [] none none).2.length = 0 + 1 ∧
    httpErrorOf 500 "Internal Server Error" =
      { message := "Strapi API error: 500 Internal Server Error",
        status := some 500 } := by
  have h := C4_http_error_no_retry (mkClient "http://h" "res" none)
    (fun _ => .resp 500 "Internal Server Error" (.ok (.coll (some []))))
    [] none ⟨[]⟩ none (.num 1) none none (by omega) rfl
  exact ⟨h.2.2.1.1, h.2.2.1.2, by decide⟩

/-! ### Request counts of the create protocol -/

/-- Lemma: `createBLocalized` issues exactly one request, whatever its outcome. -/
theorem createBLocalized_trace (c : Client) (tr : Transport)
    (trace : List Req) (payload : CreatePayload) (loc baseId : String) :
    (createBLocalized c tr trace payload loc baseId).2 =
      trace ++ [⟨some "PUT",
        c.baseURL ++ "/" ++
          stripLeadingSlashes (c.uid ++ "/" ++ baseId ++ "?locale=" ++ loc),
        some (.json payload)⟩] := by
  simp only [createBLocalized]
  split <;> rw [request_trace]

/-- Variant A create, non-default locale, base record found by the
discovery search: exactly two requests (search + localized write). -/
theorem createA_found_len {c : Client} {tr : Transport} {trace : List Req}
    {payload : CreatePayload} {params : Option QueryParams}
    {filters : Option Filters} {l : String}
    {s₁ : Nat} {t₁ : String} {b₁ : RespBody} {d : String}
    (hl : (l == "en") = false)
    (hs₁ : 200 ≤ s₁ ∧ s₁ ≤ 299)
    (htr₁ : tr trace.length = .resp s₁ t₁ (.ok b₁))
    (hfound : baseDocId (some b₁) = some d) :
    (createA c tr trace payload params filters (some l)).2.length =
      trace.length + 2 := by
  simp only [createA]
  rw [if_neg (by simp [hl]), request_ok hs₁ htr₁]
  simp only [hfound, createALocalized]
  rw [unwrapSingle_trace, request_trace]
  simp only [List.length_append, List.length_cons, List.length_nil]

/-- Variant A create, non-default locale, no base found, base POST
succeeds with a truthy documentId: exactly three requests. -/
theorem createA_nobase_len {c : Client} {tr : Transport} {trace : List Req}
    {payload : CreatePayload} {params : Option QueryParams}
    {filters : Option Filters} {l : String}
    {s₁ s₂ : Nat} {t₁ t₂ : String} {b₁ b₂ : RespBody}
    (hl : (l == "en") = false)
    (hs₁ : 200 ≤ s₁ ∧ s₁ ≤ 299)
    (htr₁ : tr trace.length = .resp s₁ t₁ (.ok b₁))
    (hnone : baseDocId (some b₁) = none)
    (hs₂ : 200 ≤ s₂ ∧ s₂ ≤ 299)
    (htr₂ : tr (trace.length + 1) = .resp s₂ t₂ (.ok b₂))
    (hdoc : docIdTruthy (createdDocId (some b₂)) = true) :
    (createA c tr trace payload params filters (some l)).2.length =
      trace.length + 3 := by
  simp only [createA]
  rw [if_neg (by simp [hl]), request_ok hs₁ htr₁]
  simp only [hnone]
  rw [request_ok hs₂ (by simpa using htr₂)]
  simp only [Option.isSome_none, hdoc, Bool.not_true, Bool.or_false,
    Bool.false_eq_true, if_false, createALocalized]
  rw [unwrapSingle_trace, request_trace]
  simp only [List.length_append, List.length_cons, List.length_nil]

/-- Variant B create, non-default locale, base record found: two requests. -/
theorem createB_found_len {c : Client} {tr : Transport} {trace : List Req}
    {payload : CreatePayload} {params : Option QueryParams}
    {filters : Option Filters} {l : String}
    {s₁ : Nat} {t₁ : String} {b₁ : RespBody} {d : String}
    (hl : (l == "en") = false)
    (hs₁ : 200 ≤ s₁ ∧ s₁ ≤ 299)
    (htr₁ : tr trace.length = .resp s₁ t₁ (.ok b₁))
    (hfound : baseDocId (some b₁) = some d) :
    (createB c tr trace payload params filters (some l)).2.length =
      trace.length + 2 := by
  simp only [createB]
  rw [if_neg (by simp [hl]), request_ok hs₁ htr₁]
  simp only [hfound]
  rw [createBLocalized_trace]
  simp only [List.length_append, List.length_cons, List.length_nil]

/-- Variant B create, non-default locale, no base found, base POST
succeeds with a truthy documentId: exactly three requests. -/
theorem createB_nobase_len {c : Client} {tr : Transport} {trace : List Req}
    {payload : CreatePayload} {params : Option QueryParams}
    {filters : Option Filters} {l : String}
    {s₁ s₂ : Nat} {t₁ t₂ : String} {b₁ b₂ : RespBody}
    (hl : (l == "en") = false)
    (hs₁ : 200 ≤ s₁ ∧ s₁ ≤ 299)
    (htr₁ : tr trace.length = .resp s₁ t₁ (.ok b₁))
    (hnone : baseDocId (some b₁) = none)
    (hs₂ : 200 ≤ s₂ ∧ s₂ ≤ 299)
    (htr₂ : tr (trace.length + 1) = .resp s₂ t₂ (.ok b₂))
    (hdoc : docIdTruthy (createdDocId (some b₂)) = true) :
    (createB c tr trace payload params filters (some l)).2.length =
      trace.length + 3 := by
  simp only [createB]
  rw [if_neg (by simp [hl]), request_ok hs₁ htr₁]
  simp only [hnone]
  rw [request_ok hs₂ (by simpa using htr₂)]
  simp only [Option.isSome_none, hdoc, Bool.not_true, Bool.or_false,
    Bool.false_eq_true, if_false]
  rw [createBLocalized_trace]
  simp only [List.length_append, List.length_cons, List.length_nil]

/-- Variant A create with the default locale: exactly one request. -/
theorem createA_default_len {c : Client} {tr : Transport} {trace : List Req}
    {payload : CreatePayload} {params : Option QueryParams}
    {filters : Option Filters} {locale : Option String}
    (hl : ((locale.getD "en") == "en") = true) :
    (createA c tr trace payload params filters locale).2.length =
      trace.length + 1 := by
  simp only [createA]
  rw [if_pos hl, unwrapSingle_trace, request_trace]
  simp

/-- Variant B create with the default locale: exactly one request. -/
theorem createB_default_len {c : Client} {tr : Transport} {trace : List Req}
    {payload : CreatePayload} {params : Option QueryParams}
    {filters : Option Filters} {locale : Option String}
    (hl : ((locale.getD "en") == "en") = true) :
    (createB c tr trace payload params filters locale).2.length =
      trace.length + 1 := by
  simp only [createB]
  rw [if_pos hl, unwrapSingle_trace, request_trace]
  simp

/-- C3: request counts of `create` (both variants): with the default
locale (omitted or "en") exactly one request; with a non-default locale
and a discovery search returning a record carrying a (truthy)
shared-document identifier exactly two requests; with a non-default locale
and no such base record, when the base POST succeeds with a truthy
documentId, exactly three requests. -/
theorem C3_create_request_counts (c : Client) (tr : Transport)
    (trace : List Req) (payload : CreatePayload) (params : Option QueryParams)
    (filters : Option Filters) :
    ((createA c tr trace payload params filters none).2.length =
      trace.length + 1) ∧
    ((createA c tr trace payload params filters (some "en")).2.length =
      trace.length + 1) ∧
    ((createB c tr trace payload params filters none).2.length =
      trace.length + 1) ∧
    ((createB c tr trace payload params filters (some "en")).2.length =
      trace.length + 1) ∧
    (∀ (l : String) (s₁ : Nat) (t₁ : String) (b₁ : RespBody),
      (l == "en") = false → 200 ≤ s₁ ∧ s₁ ≤ 299 →
      tr trace.length = .resp s₁ t₁ (.ok b₁) →
      (∀ d, baseDocId (some b₁) = some d →
        (createA c tr trace payload params filters (some l)).2.length =
          trace.length + 2 ∧
        (createB c tr trace payload params filters (some l)).2.length =
          trace.length + 2) ∧
      (baseDocId (some b₁) = none →
        ∀ (s₂ : Nat) (t₂ : String) (b₂ : RespBody),
          200 ≤ s₂ ∧ s₂ ≤ 299 →
          tr (trace.length + 1) = .resp s₂ t₂ (.ok b₂) →
          docIdTruthy (createdDocId (some b₂)) = true →
          (createA c tr trace payload params filters (some l)).2.length =
            trace.length + 3 ∧
          (createB c tr trace payload params filters (some l)).2.length =
            trace.length + 3)) :=
  ⟨createA_default_len rfl, createA_default_len rfl,
   createB_default_len rfl, createB_default_len rfl,
   fun l s₁ t₁ b₁ hl hs₁ htr₁ =>
     ⟨fun d hf =>
       ⟨createA_found_len hl hs₁ htr₁ hf, createB_found_len hl hs₁ htr₁ hf⟩,
      fun hn s₂ t₂ b₂ hs₂ htr₂ hd =>
       ⟨createA_nobase_len hl hs₁ htr₁ hn hs₂ htr₂ hd,
        createB_nobase_len hl hs₁ htr₁ hn hs₂ htr₂ hd⟩⟩⟩

/-- C3 witness: concrete one-, two- and three-request runs of both
variants. -/
theorem C3_create_request_counts_witness :
    ((createA (mkClient "http://h" "res" none)
        (fun _ => .resp 200 "OK" (.ok (.single (some ⟨.num 1, some "d"⟩))))
        [] ⟨[]⟩ none none none).2.length = 0 + 1 ∧
      (createB (mkClient "http://h" "res" none)
        (fun _ => .resp 200 "OK" (.ok (.single (some ⟨.num 1, some "d"⟩))))
        [] ⟨[]⟩ none none none).2.length = 0 + 1) ∧
    ((createA (mkClient "http://h" "res" none)
        (fun n => if n == 0 then
            .resp 200 "OK" (.ok (.coll (some [⟨.num 1, some "doc-1"⟩])))
          else .resp 200 "OK" (.ok (.single (some ⟨.num 2, some "doc-1"⟩))))
        [] ⟨[]⟩ none none (some "fr")).2.length = 0 + 2 ∧
      (createB (mkClient "http://h" "res" none)
        (fun n => if n == 0 then
            .resp 200 "OK" (.ok (.coll (some [⟨.num 1, some "doc-1"⟩])))
          else .resp 200 "OK" (.ok (.single (some ⟨.num 2, some "doc-1"⟩))))
        [] ⟨[]⟩ none none (some "fr")).2.length = 0 + 2) ∧
    ((createA (mkClient "http://h" "res" none)
        (fun n => if n == 0 then .resp 200 "OK" (.ok (.coll (some [])))
          else .resp 200 "OK" (.ok (.single (some ⟨.num 1, some "doc-2"⟩))))
        [] ⟨[]⟩ none none (some "fr")).2.length = 0 + 3 ∧
      (createB (mkClient "http://h" "res" none)
        (fun n => if n == 0 then .resp 200 "OK" (.ok (.coll (some [])))
          else .resp 200 "OK" (.ok (.single (some ⟨.num 1, some "doc-2"⟩))))
        [] ⟨[]⟩ none none (some "fr")).2.length = 0 + 3) := by
  refine ⟨⟨?_, ?_⟩, ?_, ?_⟩
  · exact (C3_create_request_counts (mkClient "http://h" "res" none)
      (fun _ => .resp 200 "OK" (.ok (.single (some ⟨.num 1, some "d"⟩))))
      [] ⟨[]⟩ none none).1
  · exact (C3_create_request_counts (mkClient "http://h" "res" none)
      (fun _ => .resp 200 "OK" (.ok (.single (some ⟨.num 1, some "d"⟩))))
      [] ⟨[]⟩ none none).2.2.1
  · exact ((C3_create_request_counts (mkClient "http://h" "res" none)
      (fun n => if n == 0 then
          .resp 200 "OK" (.ok (.coll (some [⟨.num 1, some "doc-1"⟩])))
        else .resp 200 "OK" (.ok (.single (some ⟨.num 2, some "doc-1"⟩))))
      [] ⟨[]⟩ none none).2.2.2.2 "fr" 200 "OK"
      (.coll (some [⟨.num 1, some "doc-1"⟩])) (by decide) (by omega) rfl).1
      "doc-1" (by decide)
  · exact ((C3_create_request_counts (mkClient "http://h" "res" none)
      (fun n => if n == 0 then .resp 200 "OK" (.ok (.coll (some [])))
        else .resp 200 "OK" (.ok (.single (some ⟨.num 1, some "doc-2"⟩))))
      [] ⟨[]⟩ none none).2.2.2.2 "fr" 200 "OK" (.coll (some []))
      (by decide) (by omega) rfl).2 (by decide) 200 "OK"
      (.single (some ⟨.num 1, some "doc-2"⟩)) (by omega) rfl (by decide)

/-- C5: for an HTTP-successful response whose body fails to parse: a
DELETE treats it as empty success — the request primitive yields
`{ data: null }` and both delete variants return `[null, null]` — while
any other method yields an error whose message embeds the parse-failure
text and whose status is the (successful) HTTP code, with null data;
in particular `findMany` (a GET) propagates that parse error. -/
theorem C5_parse_failure {status : Nat} {text pmsg : String}
    (c : Client) (tr : Transport) (trace : List Req) (id : Ident)
    (locale : Option String) (params : Option QueryParams)
    (hs : 200 ≤ status ∧ status ≤ 299)
    (htr : tr trace.length = .resp status text (.error pmsg)) :
    (∀ e bd, request c tr trace e (some "DELETE") bd =
      ((none, some (RespBody.single none)),
       trace ++ [⟨some "DELETE", c.baseURL ++ "/" ++ stripLeadingSlashes e, bd⟩])) ∧
    (deleteA c tr trace id locale).1 = (none, none) ∧
    (deleteB c tr trace id).1 = (none, none) ∧
    (∀ e m bd, (m == some "DELETE") = false →
      request c tr trace e m bd =
        ((some (parseErrorOf status pmsg), none),
         trace ++ [⟨m, c.baseURL ++ "/" ++ stripLeadingSlashes e, bd⟩])) ∧
    (findMany c tr trace params locale).1 =
      (some (parseErrorOf status pmsg), none) ∧
    parseErrorOf status pmsg =
      { message := "Strapi API error: Failed to parse JSON response - " ++ pmsg,
        status := some status } := by
  refine ⟨fun e bd => request_parseFailDelete hs htr, ?_, ?_,
    fun e m bd hm => request_parseFailOther hm hs htr, ?_, rfl⟩
  · simp only [deleteA]
    rw [request_parseFailDelete hs htr]
    rfl
  · simp only [deleteB]
    rw [request_parseFailDelete hs htr]
    rfl
  · simp only [findMany]
    rw [request_parseFailOther (by decide) hs htr]

/-- C5 witness: a deletion with an unparsable 204 body returns
`[null, null]`; a GET with an unparsable 200 body returns the parse error
with status 200. -/
theorem C5_parse_failure_witness :
    (deleteB (mkClient "http://h" "res" none)
      (fun _ => .resp 204 "No Content" (.error "Unexpected end of JSON input"))
      [] (.num 1)).1 = (none, none) ∧
    (findMany (mkClient "http://h" "res" none)
      (fun _ => .resp 200 "OK" (.error "Unexpected token"))
      [] none none).1 =
      (some (parseErrorOf 200 "Unexpected token"), none) := by
  constructor
  · exact (C5_parse_failure (mkClient "http://h" "res" none)
      (fun _ => .resp 204 "No Content" (.error "Unexpected end of JSON input"))
      [] (.num 1) none none (by omega) rfl).2.2.1
  · exact (C5_parse_failure (mkClient "http://h" "res" none)
      (fun _ => .resp 200 "OK" (.error "Unexpected token"))
      [] (.num 1) none none (by omega) rfl).2.2.2.2.1

/-- C1 counterexample: non-default-locale create where the discovery
search finds nothing and the base POST reports HTTP success but returns a
record lacking a shared-document identifier. The claim asserts the
returned pair has a non-null error; in fact both variants execute
`return [createErr, null]` with `createErr` null, producing `[null, null]`
— error and data both null for a genuinely failed call. -/
theorem C1_counterexample :
    (createA (mkClient "http://h" "res" none)
      (fun n => if n == 0 then .resp 200 "OK" (.ok (.coll (some [])))
        else .resp 200 "OK" (.ok (.single (some ⟨.num 5, none⟩))))
      [] ⟨[("t", "x")]⟩ none none (some "fr")).1 = (none, none) ∧
    (createB (mkClient "http://h" "res" none)
      (fun n => if n == 0 then .resp 200 "OK" (.ok (.coll (some [])))
        else .resp 200 "OK" (.ok (.single (some ⟨.num 5, none⟩))))
      [] ⟨[("t", "x")]⟩ none none (some "fr")).1 = (none, none) :=
  ⟨rfl, rfl⟩

/-- Lemma: `request` when the transport promise rejects: a
transport-failure error wrapping the underlying message, no status. -/
theorem request_throw {c : Client} {tr : Transport} {trace : List Req}
    {e : String} {m : Option String} {bd : Option ReqBody} {msg : String}
    (htr : tr trace.length = .throwErr msg) :
    request c tr trace e m bd =
      ((some (networkErrorOf msg), none),
       trace ++ [⟨m, c.baseURL ++ "/" ++ stripLeadingSlashes e, bd⟩]) := by
  simp only [request, htr]

/-- C1 amended: in non-default-locale create, when the POST that creates
the base record fails — transport rejection, non-2xx HTTP status, or an
unparsable body — the overall operation fails immediately with that same
error: non-null error, null data. When the POST reports success but the
created record lacks a truthy shared-document identifier, the operation
aborts returning `[createErr, null]` — and since `createErr` is null
there, the pair is `[null, null]`, violating the never-both-null rule for
that one sub-case (both variants). -/
theorem C1_base_create_failure {c : Client} {tr : Transport}
    {trace : List Req} {payload : CreatePayload} {params : Option QueryParams}
    {filters : Option Filters} {l : String}
    {s₁ : Nat} {t₁ : String} {b₁ : RespBody}
    (hl : (l == "en") = false)
    (hs₁ : 200 ≤ s₁ ∧ s₁ ≤ 299)
    (htr₁ : tr trace.length = .resp s₁ t₁ (.ok b₁))
    (hnone : baseDocId (some b₁) = none) :
    (∀ msg : String, tr (trace.length + 1) = .throwErr msg →
      (createA c tr trace payload params filters (some l)).1 =
        (some (networkErrorOf msg), none) ∧
      (createB c tr trace payload params filters (some l)).1 =
        (some (networkErrorOf msg), none)) ∧
    (∀ (s₂ : Nat) (t₂ : String) (b₂e : Except String RespBody),
      ¬(200 ≤ s₂ ∧ s₂ ≤ 299) → tr (trace.length + 1) = .resp s₂ t₂ b₂e →
      (createA c tr trace payload params filters (some l)).1 =
        (some (httpErrorOf s₂ t₂), none) ∧
      (createB c tr trace payload params filters (some l)).1 =
        (some (httpErrorOf s₂ t₂), none)) ∧
    (∀ (s₂ : Nat) (t₂ pm : String),
      200 ≤ s₂ ∧ s₂ ≤ 299 → tr (trace.length + 1) = .resp s₂ t₂ (.error pm) →
      (createA c tr trace payload params filters (some l)).1 =
        (some (parseErrorOf s₂ pm), none) ∧
      (createB c tr trace payload params filters (some l)).1 =
        (some (parseErrorOf s₂ pm), none)) ∧
    (∀ (s₂ : Nat) (t₂ : String) (b₂ : RespBody),
      200 ≤ s₂ ∧ s₂ ≤ 299 → tr (trace.length + 1) = .resp s₂ t₂ (.ok b₂) →
      docIdTruthy (createdDocId (some b₂)) = false →
      (createA c tr trace payload params filters (some l)).1 = (none, none) ∧
      (createB c tr trace payload params filters (some l)).1 = (none, none)) := by
  refine ⟨?_, ?_, ?_, ?_⟩
  · intro msg htr₂
    constructor
    · simp only [createA]
      rw [if_neg (by simp [hl]), request_ok hs₁ htr₁]
      simp only [hnone]
      rw [request_throw (by simpa using htr₂)]
      simp
    · simp only [createB]
      rw [if_neg (by simp [hl]), request_ok hs₁ htr₁]
      simp only [hnone]
      rw [request_throw (by simpa using htr₂)]
      simp
  · intro s₂ t₂ b₂e hs₂ htr₂
    constructor
    · simp only [createA]
      rw [if_neg (by simp [hl]), request_ok hs₁ htr₁]
      simp only [hnone]
      rw [request_httpError hs₂ (by simpa using htr₂)]
      simp
    · simp only [createB]
      rw [if_neg (by simp [hl]), request_ok hs₁ htr₁]
      simp only [hnone]
      rw [request_httpError hs₂ (by simpa using htr₂)]
      simp
  · intro s₂ t₂ pm hs₂ htr₂
    constructor
    · simp only [createA]
      rw [if_neg (by simp [hl]), request_ok hs₁ htr₁]
      simp only [hnone]
      rw [request_parseFailOther (by decide) hs₂ (by simpa using htr₂)]
      simp
    · simp only [createB]
      rw [if_neg (by simp [hl]), request_ok hs₁ htr₁]
      simp only [hnone]
      rw [request_parseFailOther (by decide) hs₂ (by simpa using htr₂)]
      simp
  · intro s₂ t₂ b₂ hs₂ htr₂ hd
    constructor
    · simp only [createA]
      rw [if_neg (by simp [hl]), request_ok hs₁ htr₁]
      simp only [hnone]
      rw [request_ok hs₂ (by simpa using htr₂)]
      simp [hd]
    · simp only [createB]
      rw [if_neg (by simp [hl]), request_ok hs₁ htr₁]
      simp only [hnone]
      rw [request_ok hs₂ (by simpa using htr₂)]
      simp [hd]

/-- C1 witness: all four base-POST failure shapes at a concrete client —
a transport rejection, a 400 response and an unparsable 200 body each
propagate as the returned (non-null) error with null data; a successful
POST without documentId yields `[null, null]`. -/
theorem C1_base_create_failure_witness :
    ((createA (mkClient "http://h" "res" none)
        (fun n => if n == 0 then .resp 200 "OK" (.ok (.coll (some [])))
          else .throwErr "Network error")
        [] ⟨[("t", "x")]⟩ none none (some "fr")).1 =
      (some (networkErrorOf "Network error"), none) ∧
      (createB (mkClient "http://h" "res" none)
        (fun n => if n == 0 then .resp 200 "OK" (.ok (.coll (some [])))
          else .throwErr "Network error")
        [] ⟨[("t", "x")]⟩ none none (some "fr")).1 =
      (some (networkErrorOf "Network error"), none)) ∧
    ((createA (mkClient "http://h" "res" none)
        (fun n => if n == 0 then .resp 200 "OK" (.ok (.coll (some [])))
          else .resp 400 "Bad Request" (.ok (.coll (some []))))
        [] ⟨[("t", "x")]⟩ none none (some "fr")).1 =
      (some (httpErrorOf 400 "Bad Request"), none) ∧
      (createB (mkClient "http://h" "res" none)
        (fun n => if n == 0 then .resp 200 "OK" (.ok (.coll (some [])))
          else .resp 400 "Bad Request" (.ok (.coll (some []))))
        [] ⟨[("t", "x")]⟩ none none (some "fr")).1 =
      (some (httpErrorOf 400 "Bad Request"), none)) ∧
    ((createA (mkClient "http://h" "res" none)
        (fun n => if n == 0 then .resp 200 "OK" (.ok (.coll (some [])))
          else .resp 200 "OK" (.error "Unexpected end of JSON input"))
        [] ⟨[("t", "x")]⟩ none none (some "fr")).1 =
      (some (parseErrorOf 200 "Unexpected end of JSON input"), none) ∧
      (createB (mkClient "http://h" "res" none)
        (fun n => if n == 0 then .resp 200 "OK" (.ok (.coll (some [])))
          else .resp 200 "OK" (.error "Unexpected end of JSON input"))
        [] ⟨[("t", "x")]⟩ none none (some "fr")).1 =
      (some (parseErrorOf 200 "Unexpected end of JSON input"), none)) ∧
    ((createA (mkClient "http://h" "res" none)
        (fun n => if n == 0 then .resp 200 "OK" (.ok (.coll (some [])))
          else .resp 201 "Created" (.ok (.single (some ⟨.num 5, none⟩))))
        [] ⟨[("t", "x")]⟩ none none (some "fr")).1 = (none, none) ∧
      (createB (mkClient "http://h" "res" none)
        (fun n => if n == 0 then .resp 200 "OK" (.ok (.coll (some [])))
          else .resp 201 "Created" (.ok (.single (some ⟨.num 5, none⟩))))
        [] ⟨[("t", "x")]⟩ none none (some "fr")).1 = (none, none)) := by
  refine ⟨?_, ?_, ?_, ?_⟩
  · exact (C1_base_create_failure (by decide) (by omega) rfl (by decide)).1
      "Network error" rfl
  · exact (C1_base_create_failure (by decide) (by omega) rfl (by decide)).2.1
      400 "Bad Request" (.ok (.coll (some []))) (by omega) rfl
  · exact (C1_base_create_failure (by decide) (by omega) rfl (by decide)).2.2.1
      200 "OK" "Unexpected end of JSON input" (by omega) rfl
  · exact (C1_base_create_failure (by decide) (by omega) rfl (by decide)).2.2.2
      201 "Created" (.single (some ⟨.num 5, none⟩)) (by omega) rfl (by decide)

/-- Lemma: `findMany` on a 2xx response with a parsable body. -/
theorem findMany_ok {c : Client} {tr : Transport} {trace : List Req}
    {params : Option QueryParams} {locale : Option String}
    {status : Nat} {text : String} {b : RespBody}
    (hs : 200 ≤ status ∧ status ≤ 299)
    (htr : tr trace.length = .resp status text (.ok b)) :
    findMany c tr trace params locale =
      ((none, some ((collData (some b)).getD [])),
       trace ++ [⟨some "GET",
         c.baseURL ++ "/" ++ stripLeadingSlashes
           (c.uid ++ getQueryString (some (mergeLocale params locale))),
         none⟩]) := by
  simp only [findMany, request_ok hs htr]

/-- C2 counterexample: variant A upsert whose search matches a record
with id 7 and no shared-document identifier. The claim's fallback would
make the update target the plain identifier (URL `.../7`); variant A
instead coalesces `documentId ?? documentId`, so the update request goes
to `.../undefined`. -/
theorem C2_counterexample :
    ((upsertA (mkClient "http://h" "res" none)
      (fun n => if n == 0 then
          .resp 200 "OK" (.ok (.coll (some [⟨.num 7, none⟩])))
        else .resp 200 "OK" (.ok (.single (some ⟨.num 7, none⟩))))
      [] ⟨[("n", "u")]⟩ none none none).2)[1]? =
      some ⟨some "PUT", "http://h/api/res/undefined",
        some (.json ⟨[("n", "u")]⟩)⟩ ∧
    "http://h/api/res/undefined" ≠ "http://h/api/res/7" :=
  ⟨rfl, by decide⟩

/-- C2 amended: for every upsert whose search returns a non-empty list,
both variants delegate to update; the target is the first record's
shared-document identifier when present (both variants); when it is
absent, variant B falls back to the record's plain identifier, but
variant A's fallback expression is the shared-document identifier again,
so its target is `undefined` (serialized as "undefined" in the URL), not
the plain identifier. -/
theorem C2_upsert_update_target {c : Client} {tr : Transport}
    {trace : List Req} {payload : CreatePayload} {filters : Option Filters}
    {s₁ : Nat} {t₁ : String} {r : Rec} {rest : List Rec}
    (hs₁ : 200 ≤ s₁ ∧ s₁ ≤ 299)
    (htr₁ : tr trace.length = .resp s₁ t₁ (.ok (.coll (some (r :: rest))))) :
    upsertA c tr trace payload filters none none =
      updateA c tr (trace ++ [⟨some "GET",
        c.baseURL ++ "/" ++ stripLeadingSlashes
          (c.uid ++ getQueryString (some (mergeLocale
            (some (upsertSearchParams {} filters "en")) (some "en")))),
        none⟩]) (upsertTargetA r) payload (some {}) (some "en") ∧
    upsertB c tr trace payload filters none none =
      updateB c tr (trace ++ [⟨some "GET",
        c.baseURL ++ "/" ++ stripLeadingSlashes
          (c.uid ++ getQueryString (some (mergeLocale
            (some (upsertSearchParams {} filters "en")) (some "en")))),
        none⟩]) (upsertTargetB r) payload (some {}) (some "en") ∧
    (∀ (rr : Rec) (d : String), rr.documentId = some d →
      upsertTargetA rr = .str d ∧ upsertTargetB rr = .str d) ∧
    (∀ rr : Rec, rr.documentId = none →
      upsertTargetA rr = .jsUndefined ∧ upsertTargetB rr = rr.id) := by
  refine ⟨?_, ?_, ?_, ?_⟩
  · simp only [upsertA, findMany_ok hs₁ htr₁]
    rfl
  · simp only [upsertB, findMany_ok hs₁ htr₁]
    rfl
  · intro rr d h
    constructor <;> simp [upsertTargetA, upsertTargetB, h]
  · intro rr h
    constructor <;> simp [upsertTargetA, upsertTargetB, h]

/-- C2 witness: concrete delegation of variant B's upsert to update with
the plain-id fallback, and of variant A's to the undefined target. -/
theorem C2_upsert_update_target_witness :
    upsertB (mkClient "http://h" "res" none)
      (fun n => if n == 0 then
          .resp 200 "OK" (.ok (.coll (some [⟨.num 7, none⟩])))
        else .resp 200 "OK" (.ok (.single (some ⟨.num 7, none⟩))))
      [] ⟨[("n", "u")]⟩ none none none =
      updateB (mkClient "http://h" "res" none)
        (fun n => if n == 0 then
            .resp 200 "OK" (.ok (.coll (some [⟨.num 7, none⟩])))
          else .resp 200 "OK" (.ok (.single (some ⟨.num 7, none⟩))))
        [⟨some "GET", "http://h/api/res?pagination%5BpageSize%5D=1", none⟩]
        (upsertTargetB ⟨.num 7, none⟩) ⟨[("n", "u")]⟩ (some {}) (some "en") ∧
    upsertTargetB (⟨.num 7, none⟩ : Rec) = .num 7 ∧
    upsertTargetA (⟨.num 7, none⟩ : Rec) = .jsUndefined := by
  refine ⟨?_, ?_, ?_⟩
  · exact (@C2_upsert_update_target (mkClient "http://h" "res" none)
      (fun n => if n == 0 then
          .resp 200 "OK" (.ok (.coll (some [⟨.num 7, none⟩])))
        else .resp 200 "OK" (.ok (.single (some ⟨.num 7, none⟩))))
      [] ⟨[("n", "u")]⟩ none 200 "OK" ⟨.num 7, none⟩ []
      (by omega) rfl).2.1
  · exact ((@C2_upsert_update_target (mkClient "http://h" "res" none)
      (fun _ => .resp 200 "OK" (.ok (.coll (some [⟨.num 7, none⟩]))))
      [] ⟨[("n", "u")]⟩ none 200 "OK" ⟨.num 7, none⟩ []
      (by omega) rfl).2.2.2 ⟨.num 7, none⟩ rfl).2
  · exact ((@C2_upsert_update_target (mkClient "http://h" "res" none)
      (fun _ => .resp 200 "OK" (.ok (.coll (some [⟨.num 7, none⟩]))))
      [] ⟨[("n", "u")]⟩ none 200 "OK" ⟨.num 7, none⟩ []
      (by omega) rfl).2.2.2 ⟨.num 7, none⟩ rfl).1

end Strapi
